import Mathlib

/-!
Shallow embedding of the container-monitor core of `mssql_tray.py`.

The embedded code is the `ContainerStatus` enumeration and the
`ContainerMonitor` class: its probe (`check_status`), its edge-triggered
poll routine (`poll`), and its fire-and-forget action methods
(`start`, `stop`, `restart`).  External effects are made explicit:

* `subprocess.run` is modelled by `subprocessRun`, parametrised by a
  `RunOutcome` describing what the external command did (completed with
  some standard output and exit code, or raised one of the exceptions
  the source catches: `TimeoutExpired`, `FileNotFoundError`, `OSError`);
* `subprocess.Popen` is modelled by `subprocessPopen`, parametrised by a
  `LaunchOutcome` (spawned — carrying the child's eventual exit code,
  which the caller never sees — or failed at dispatch with an exception);
* the mutable object state becomes explicit state passing: `poll` returns
  the updated monitor together with the list of callback invocations it
  performed (in order), and each action method returns the monitor, the
  callback invocations (none), and the single spawn record, or the
  uncaught launch exception.
-/

namespace MssqlTray

/-- The three-variant status enumeration of the source. -/
inductive ContainerStatus where
  | RUNNING
  | STOPPED
  | UNKNOWN
  deriving DecidableEq

/-- The enum's string value, as in the source. -/
def ContainerStatus.value : ContainerStatus → String
  | .RUNNING => "running"
  | .STOPPED => "stopped"
  | .UNKNOWN => "unknown"

/-- Presentation colour of each status, as in the source. -/
def ContainerStatus.color : ContainerStatus → String
  | .RUNNING => "green"
  | .STOPPED => "red"
  | .UNKNOWN => "yellow"

/-- Presentation label of each status, as in the source. -/
def ContainerStatus.label : ContainerStatus → String
  | .RUNNING => "Running"
  | .STOPPED => "Stopped"
  | .UNKNOWN => "Unknown"

/-- The exceptions the probe's try/except clause names, plus the launch
fault of `Popen`: `subprocess.TimeoutExpired`, `FileNotFoundError`, `OSError`. -/
inductive PyError where
  | timeoutExpired
  | fileNotFoundError
  | osError
  deriving DecidableEq

/-- The fields of `subprocess.CompletedProcess` the source reads. -/
structure CompletedProcess where
  args : List String
  returncode : Int
  stdout : String
  deriving DecidableEq

/-- What the external `subprocess.run` invocation did: completed (with the
given standard output and exit code) or raised one of the caught faults. -/
inductive RunOutcome where
  | completed (stdout : String) (returncode : Int)
  | raised (e : PyError)
  deriving DecidableEq

/-- Model of `subprocess.run(cmd, capture_output=True, text=True, timeout=...)`:
returns the completed process, or raises the fault the environment produced. -/
def subprocessRun (cmd : List String) (_timeout : Nat) (outcome : RunOutcome) :
    Except PyError CompletedProcess :=
  match outcome with
  | .completed out rc => .ok { args := cmd, returncode := rc, stdout := out }
  | .raised e => .error e

/-- Characters removed by Python's `str.strip()` (whitespace). -/
def pyIsWhitespace (c : Char) : Bool :=
  c = ' ' || c = '\t' || c = '\n' || c = '\r' ||
  c = Char.ofNat 11 || c = Char.ofNat 12 ||
  c = Char.ofNat 28 || c = Char.ofNat 29 || c = Char.ofNat 30 ||
  c = Char.ofNat 31 || c = Char.ofNat 133 || c = Char.ofNat 160

/-- Model of Python's `str.strip()`: drop leading and trailing whitespace. -/
def pyStrip (s : String) : String :=
  String.mk (((s.data.dropWhile pyIsWhitespace).reverse.dropWhile pyIsWhitespace).reverse)

/-- Single-character line boundaries of Python's `str.splitlines()`. -/
def pyLineBoundary (c : Char) : Bool :=
  c = '\n' || c = '\r' ||
  c = Char.ofNat 11 || c = Char.ofNat 12 ||
  c = Char.ofNat 28 || c = Char.ofNat 29 || c = Char.ofNat 30 ||
  c = Char.ofNat 133 || c = Char.ofNat 8232 || c = Char.ofNat 8233

/-- Worker for `pySplitlines`: `acc` holds the current line, reversed. -/
def pySplitlinesAux : List Char → List Char → List String
  | [], acc => if acc.isEmpty then [] else [String.mk acc.reverse]
  | '\r' :: '\n' :: rest, acc => String.mk acc.reverse :: pySplitlinesAux rest []
  | c :: rest, acc =>
      if pyLineBoundary c then String.mk acc.reverse :: pySplitlinesAux rest []
      else pySplitlinesAux rest (c :: acc)

/-- Model of Python's `str.splitlines()`. -/
def pySplitlines (s : String) : List String :=
  pySplitlinesAux s.data []

/-- The names parsed from the probe's standard output:
`result.stdout.strip().splitlines()`. -/
def pyNames (stdout : String) : List String :=
  pySplitlines (pyStrip stdout)

/-- The state of a `ContainerMonitor` object.  `on_status_change` records
whether a callback is registered (the source tests its truthiness); callback
invocations themselves are reported as events by the methods below. -/
structure ContainerMonitor where
  container_name : String
  mssql_sh_path : String
  last_status : Option ContainerStatus
  on_status_change : Bool
  deriving DecidableEq

/-- `ContainerMonitor.__init__`: stores the name and script path, no prior
observation, no callback registered yet. -/
def ContainerMonitor.init (container_name mssql_sh_path : String) : ContainerMonitor :=
  { container_name := container_name
    mssql_sh_path := mssql_sh_path
    last_status := none
    on_status_change := false }

/-- `ContainerMonitor.check_status`: run
`podman ps --format "\x7b\x7b.Names\x7d\x7d"` with a 10-second timeout;
on completion, `RUNNING` when the configured name is among the
stripped-and-split output lines, else `STOPPED`; on any caught fault,
`UNKNOWN`. -/
def ContainerMonitor.check_status (m : ContainerMonitor) (outcome : RunOutcome) :
    ContainerStatus :=
  match subprocessRun ["podman", "ps", "--format", "\x7b\x7b.Names\x7d\x7d"] 10 outcome with
  | .ok result =>
      let names := pyNames result.stdout
      if m.container_name ∈ names then .RUNNING else .STOPPED
  | .error _ => .UNKNOWN

/-- `ContainerMonitor.poll`: classify, and when the classification differs
from the stored one (`current != self._last_status`; the stored value may be
`None`), store it and, if a callback is registered, invoke it with the new
status.  The returned list is the sequence of callback invocations. -/
def ContainerMonitor.poll (m : ContainerMonitor) (outcome : RunOutcome) :
    ContainerMonitor × List ContainerStatus :=
  let current := m.check_status outcome
  if some current ≠ m.last_status then
    let m' := { m with last_status := some current }
    if m.on_status_change then (m', [current]) else (m', [])
  else
    (m, [])

/-- The spawn record of a `subprocess.Popen` call: argument vector and
whether each output stream was redirected to `DEVNULL`. -/
structure PopenCall where
  args : List String
  stdout_devnull : Bool
  stderr_devnull : Bool
  deriving DecidableEq

/-- What happened at `subprocess.Popen` dispatch: the child was spawned
(its eventual exit code is the environment's business, never the caller's),
or the launch itself failed with an exception. -/
inductive LaunchOutcome where
  | spawned (childExitCode : Int)
  | failed (e : PyError)
  deriving DecidableEq

/-- Model of `subprocess.Popen(args, stdout=DEVNULL, stderr=DEVNULL)`:
returns the spawn record without waiting for the child, or raises the
dispatch fault. -/
def subprocessPopen (args : List String) (stdoutDevnull stderrDevnull : Bool)
    (launch : LaunchOutcome) : Except PyError PopenCall :=
  match launch with
  | .spawned _ => .ok { args := args, stdout_devnull := stdoutDevnull, stderr_devnull := stderrDevnull }
  | .failed e => .error e

/-- `ContainerMonitor.start`: one `Popen` of the control script with the
single argument `"start"`, streams discarded; the monitor is returned
untouched, no callback fires, and a launch fault is not caught. -/
def ContainerMonitor.start (m : ContainerMonitor) (launch : LaunchOutcome) :
    Except PyError (ContainerMonitor × List ContainerStatus × PopenCall) :=
  match subprocessPopen [m.mssql_sh_path, "start"] true true launch with
  | .ok call => .ok (m, [], call)
  | .error e => .error e

/-- `ContainerMonitor.stop`: as `start`, with argument `"stop"`. -/
def ContainerMonitor.stop (m : ContainerMonitor) (launch : LaunchOutcome) :
    Except PyError (ContainerMonitor × List ContainerStatus × PopenCall) :=
  match subprocessPopen [m.mssql_sh_path, "stop"] true true launch with
  | .ok call => .ok (m, [], call)
  | .error e => .error e

/-- `ContainerMonitor.restart`: as `start`, with argument `"restart"`. -/
def ContainerMonitor.restart (m : ContainerMonitor) (launch : LaunchOutcome) :
    Except PyError (ContainerMonitor × List ContainerStatus × PopenCall) :=
  match subprocessPopen [m.mssql_sh_path, "restart"] true true launch with
  | .ok call => .ok (m, [], call)
  | .error e => .error e

/-- Iterate `poll` over a sequence of probe outcomes, collecting the list of
callback invocations of each call. -/
def pollTrace : ContainerMonitor → List RunOutcome → ContainerMonitor × List (List ContainerStatus)
  | m, [] => (m, [])
  | m, o :: os =>
      let step := m.poll o
      let rest := pollTrace step.1 os
      (rest.1, step.2 :: rest.2)

/-- Pure edge detector on a classification sequence: given the previously
observed status (if any), emit per sample the callback invocations a
registered subscriber receives — the sample's value when it differs from its
predecessor, nothing otherwise.  This is the spec's description of the
debounce rule, used as a waypoint for reasoning about `pollTrace`. -/
def edgeEvents : Option ContainerStatus → List ContainerStatus → List (List ContainerStatus)
  | _, [] => []
  | prev, s :: rest => (if some s ≠ prev then [s] else []) :: edgeEvents (some s) rest

lemma poll_eq_of_ne (m : ContainerMonitor) (o : RunOutcome)
    (h : some (m.check_status o) ≠ m.last_status) :
    m.poll o = ({ m with last_status := some (m.check_status o) },
      if m.on_status_change then [m.check_status o] else []) := by
  unfold ContainerMonitor.poll
  rw [if_pos h]
  split <;> rfl

lemma poll_eq_of_eq (m : ContainerMonitor) (o : RunOutcome)
    (h : some (m.check_status o) = m.last_status) :
    m.poll o = (m, []) := by
  unfold ContainerMonitor.poll
  rw [if_neg (not_not_intro h)]

lemma poll_last_status (m : ContainerMonitor) (o : RunOutcome) :
    ((m.poll o).1).last_status = some (m.check_status o) := by
  by_cases h : some (m.check_status o) = m.last_status
  · rw [poll_eq_of_eq m o h]
    exact h.symm
  · rw [poll_eq_of_ne m o h]

lemma pollTrace_cons (m : ContainerMonitor) (o : RunOutcome) (os : List RunOutcome) :
    pollTrace m (o :: os)
      = ((pollTrace (m.poll o).1 os).1, (m.poll o).2 :: (pollTrace (m.poll o).1 os).2) := rfl

lemma pollTrace_events (m : ContainerMonitor) (os : List RunOutcome)
    (hcb : m.on_status_change = true) :
    (pollTrace m os).2 = edgeEvents m.last_status (os.map m.check_status) := by
  induction os generalizing m with
  | nil => rfl
  | cons o os ih =>
    have hmap : edgeEvents m.last_status ((o :: os).map m.check_status)
        = (if some (m.check_status o) ≠ m.last_status then [m.check_status o] else [])
          :: edgeEvents (some (m.check_status o)) (os.map m.check_status) := rfl
    rw [pollTrace_cons, hmap]
    by_cases h : some (m.check_status o) = m.last_status
    · rw [poll_eq_of_eq m o h, if_neg (not_not_intro h)]
      show ([] : List ContainerStatus) :: (pollTrace m os).2
          = [] :: edgeEvents (some (m.check_status o)) (os.map m.check_status)
      rw [ih m hcb, ← h]
    · rw [poll_eq_of_ne m o h, if_pos h, if_pos hcb]
      show [m.check_status o]
            :: (pollTrace { m with last_status := some (m.check_status o) } os).2
          = [m.check_status o] :: edgeEvents (some (m.check_status o)) (os.map m.check_status)
      rw [ih { m with last_status := some (m.check_status o) } hcb]
      rfl

lemma pollTrace_isSome (m : ContainerMonitor) (os : List RunOutcome)
    (h : m.last_status.isSome = true) :
    ((pollTrace m os).1).last_status.isSome = true := by
  induction os generalizing m with
  | nil => exact h
  | cons o os ih =>
    rw [pollTrace_cons]
    exact ih (m.poll o).1 (by rw [poll_last_status]; rfl)

lemma edgeEvents_getD (sts : List ContainerStatus) (prev : Option ContainerStatus)
    (i : Nat) (h : i < sts.length) :
    (edgeEvents prev sts).getD i [] =
      if i = 0 then
        (if some (sts.getD 0 .UNKNOWN) = prev then [] else [sts.getD 0 .UNKNOWN])
      else
        (if sts.getD (i - 1) .UNKNOWN = sts.getD i .UNKNOWN then []
         else [sts.getD i .UNKNOWN]) := by
  induction sts generalizing prev i with
  | nil => exact absurd h (Nat.not_lt_zero i)
  | cons s rest ih =>
    match i with
    | 0 =>
      rw [if_pos rfl]
      by_cases hp : some s = prev
      · rw [if_pos (show some ((s :: rest).getD 0 ContainerStatus.UNKNOWN) = prev from hp)]
        show (if some s ≠ prev then [s] else []) = []
        rw [if_neg (not_not_intro hp)]
      · rw [if_neg (show ¬ some ((s :: rest).getD 0 ContainerStatus.UNKNOWN) = prev from hp)]
        show (if some s ≠ prev then [s] else []) = [(s :: rest).getD 0 ContainerStatus.UNKNOWN]
        rw [if_pos hp]
        rfl
    | Nat.succ j =>
      have hj : j < rest.length := Nat.lt_of_succ_lt_succ h
      have hstep : (edgeEvents prev (s :: rest)).getD (j + 1) []
          = (edgeEvents (some s) rest).getD j [] := rfl
      rw [hstep, ih (some s) j hj]
      match j with
      | 0 =>
        rw [if_pos rfl, if_neg (Nat.succ_ne_zero 0)]
        by_cases he : rest.getD 0 ContainerStatus.UNKNOWN = s
        · rw [if_pos (congrArg Option.some he),
            if_pos (show (s :: rest).getD 0 ContainerStatus.UNKNOWN
                = (s :: rest).getD 1 ContainerStatus.UNKNOWN from Eq.symm he)]
        · rw [if_neg (show ¬ some (rest.getD 0 ContainerStatus.UNKNOWN) = some s
                from fun hc => he (Option.some.inj hc)),
            if_neg (show ¬ (s :: rest).getD 0 ContainerStatus.UNKNOWN
                = (s :: rest).getD 1 ContainerStatus.UNKNOWN from fun hc => he (Eq.symm hc))]
          rfl
      | Nat.succ k =>
        rw [if_neg (Nat.succ_ne_zero k), if_neg (Nat.succ_ne_zero (k + 1))]
        rfl

/-- C1: `check_status` returns exactly one of the three statuses, exhaustively
and mutually exclusively: `RUNNING` exactly when the probe completed and the
configured name is an exact full-line match among the output's names,
`STOPPED` exactly when the probe completed and the name is absent (the empty
output included), and `UNKNOWN` exactly when the command raised a timeout,
a missing-binary fault or any other OS-level execution fault. -/
theorem check_status_trichotomy (m : ContainerMonitor) (o : RunOutcome) :
    (m.check_status o = .RUNNING ∨ m.check_status o = .STOPPED ∨ m.check_status o = .UNKNOWN)
    ∧ (m.check_status o = .RUNNING ↔
        ∃ out rc, o = .completed out rc ∧ m.container_name ∈ pyNames out)
    ∧ (m.check_status o = .STOPPED ↔
        ∃ out rc, o = .completed out rc ∧ m.container_name ∉ pyNames out)
    ∧ (m.check_status o = .UNKNOWN ↔ ∃ e, o = .raised e) := by
  cases o with
  | completed out rc =>
    by_cases h : m.container_name ∈ pyNames out
    · refine ⟨?_, ?_, ?_, ?_⟩ <;>
        simp [ContainerMonitor.check_status, subprocessRun, h]
    · refine ⟨?_, ?_, ?_, ?_⟩ <;>
        simp [ContainerMonitor.check_status, subprocessRun, h]
  | raised e =>
    refine ⟨?_, ?_, ?_, ?_⟩ <;>
      simp [ContainerMonitor.check_status, subprocessRun]

/-- Witness for C1 at a concrete probe outcome: output listing only another
container classifies as `STOPPED`. -/
theorem check_status_trichotomy_witness :
    (ContainerMonitor.init "mssql-server" "/opt/mssql.sh").check_status
      (.completed "postgres-dev\n" 0) = .STOPPED :=
  (check_status_trichotomy (ContainerMonitor.init "mssql-server" "/opt/mssql.sh")
      (.completed "postgres-dev\n" 0)).2.2.1.mpr
    ⟨"postgres-dev\n", 0, rfl, by decide⟩

/-- C2: feeding any sequence of probe outcomes through successive `poll` calls
of a freshly constructed monitor with a registered callback, the callback
fires exactly once per maximal run of consecutive equal classifications —
on the poll observing the run's first element, with that classification —
and fires nowhere else. -/
theorem poll_fires_on_run_starts (name sh : String) (os : List RunOutcome)
    (i : Nat) (h : i < os.length) :
    ((pollTrace (ContainerMonitor.mk name sh none true) os).2).getD i [] =
      (if i = 0 then
        [(os.map (ContainerMonitor.mk name sh none true).check_status).getD 0
          ContainerStatus.UNKNOWN]
      else if (os.map (ContainerMonitor.mk name sh none true).check_status).getD (i - 1)
            ContainerStatus.UNKNOWN
          = (os.map (ContainerMonitor.mk name sh none true).check_status).getD i
            ContainerStatus.UNKNOWN
        then []
        else [(os.map (ContainerMonitor.mk name sh none true).check_status).getD i
          ContainerStatus.UNKNOWN]) := by
  have hb := pollTrace_events (ContainerMonitor.mk name sh none true) os rfl
  rw [hb]
  have hl : i < ((os.map (ContainerMonitor.mk name sh none true).check_status)).length := by
    simpa using h
  rw [edgeEvents_getD _ _ i hl]
  by_cases h0 : i = 0
  · rw [if_pos h0, if_pos h0]
    rw [if_neg (by simp)]
  · rw [if_neg h0, if_neg h0]

/-- Witness for C2: two identical probe results fire the callback only on the
first poll; the second poll of the run produces no invocation. -/
theorem poll_fires_on_run_starts_witness :
    ((pollTrace (ContainerMonitor.mk "mssql-server" "/opt/mssql.sh" none true)
        [RunOutcome.completed "mssql-server\n" 0,
         RunOutcome.completed "mssql-server\n" 0]).2).getD 1 [] = [] :=
  (poll_fires_on_run_starts "mssql-server" "/opt/mssql.sh"
      [RunOutcome.completed "mssql-server\n" 0,
       RunOutcome.completed "mssql-server\n" 0] 1 (by decide)).trans (by decide)

/-- C3: each `poll` stores the fresh classification exactly when it differs
from the stored value (or none was stored); on equality nothing is mutated
and no callback fires; on an update the registered callback is invoked
exactly once with the new status, as part of the same `poll` call, and no
field other than `last_status` changes. -/
theorem poll_update_iff_change (m : ContainerMonitor) (o : RunOutcome) :
    ((m.poll o).1).last_status = some (m.check_status o)
    ∧ ((m.poll o).1).container_name = m.container_name
    ∧ ((m.poll o).1).mssql_sh_path = m.mssql_sh_path
    ∧ ((m.poll o).1).on_status_change = m.on_status_change
    ∧ (m.last_status = some (m.check_status o) → m.poll o = (m, []))
    ∧ (m.last_status ≠ some (m.check_status o) →
        m.poll o = ({ m with last_status := some (m.check_status o) },
          if m.on_status_change then [m.check_status o] else [])) := by
  refine ⟨poll_last_status m o, ?_, ?_, ?_,
    fun h => poll_eq_of_eq m o h.symm,
    fun h => poll_eq_of_ne m o (fun hc => h hc.symm)⟩ <;>
    · by_cases h : some (m.check_status o) = m.last_status
      · rw [poll_eq_of_eq m o h]
      · rw [poll_eq_of_ne m o h]

/-- Witness for C3: with `STOPPED` stored and a probe listing the container,
`poll` stores `RUNNING` and invokes the callback once with `RUNNING`. -/
theorem poll_update_iff_change_witness :
    (ContainerMonitor.mk "mssql-server" "/opt/mssql.sh" (some .STOPPED) true).poll
        (.completed "mssql-server\n" 0)
      = (ContainerMonitor.mk "mssql-server" "/opt/mssql.sh" (some .RUNNING) true,
         [ContainerStatus.RUNNING]) :=
  ((poll_update_iff_change
      (ContainerMonitor.mk "mssql-server" "/opt/mssql.sh" (some .STOPPED) true)
      (.completed "mssql-server\n" 0)).2.2.2.2.2 (by decide)).trans (by decide)

/-- C4: on a freshly constructed monitor with a registered callback, the first
`poll` fires the callback exactly once — whichever of the three statuses is
observed — and after that first poll the no-prior-observation state is never
re-entered: however many further polls run, a status stays stored. -/
theorem first_poll_always_fires (name sh : String) (o : RunOutcome)
    (os : List RunOutcome) :
    ((ContainerMonitor.mk name sh none true).poll o).2
        = [(ContainerMonitor.mk name sh none true).check_status o]
    ∧ ((pollTrace ((ContainerMonitor.mk name sh none true).poll o).1 os).1).last_status.isSome
        = true := by
  constructor
  · rw [poll_eq_of_ne (ContainerMonitor.mk name sh none true) o (by simp)]
    rfl
  · exact pollTrace_isSome _ os (by rw [poll_last_status]; rfl)

/-- C5: matching is exact-line, not substring: whenever the configured name is
not one of the output's full lines — in particular when it occurs only as a
proper substring of a line, as `"mssql-server-test"` does in a listing that
contains only `"mssql-server-test-2"` — a completed probe classifies as
`STOPPED`, never `RUNNING`. -/
theorem exact_line_match_only (m : ContainerMonitor) (out : String) (rc : Int)
    (h : m.container_name ∉ pyNames out) :
    m.check_status (.completed out rc) = .STOPPED := by
  simp [ContainerMonitor.check_status, subprocessRun, h]

/-- Witness for C5: a listing containing `"mssql-server-test-2"` but not the
exact line `"mssql-server-test"` does not classify `"mssql-server-test"` as
running. -/
theorem exact_line_match_only_witness :
    ("mssql-server-test" ∉ pyNames "postgres-dev\nmssql-server-test-2\n")
    ∧ (ContainerMonitor.mk "mssql-server-test" "/opt/mssql.sh" none false).check_status
        (.completed "postgres-dev\nmssql-server-test-2\n" 0) = .STOPPED :=
  ⟨by decide,
   exact_line_match_only
     (ContainerMonitor.mk "mssql-server-test" "/opt/mssql.sh" none false)
     "postgres-dev\nmssql-server-test-2\n" 0 (by decide)⟩

/-- C6: probe failures are absorbed, never propagated: for every caught fault
(timeout, missing binary, OS-level execution fault) `check_status` returns
the value `UNKNOWN`, and `poll` completes normally, storing `UNKNOWN` and
returning its (possibly empty) callback-invocation list. -/
theorem probe_fault_absorbed (m : ContainerMonitor) (e : PyError) :
    m.check_status (.raised e) = .UNKNOWN
    ∧ ((m.poll (.raised e)).1).last_status = some .UNKNOWN
    ∧ ((m.poll (.raised e)).2 = [] ∨ (m.poll (.raised e)).2 = [.UNKNOWN]) := by
  refine ⟨rfl, poll_last_status m (.raised e), ?_⟩
  by_cases h : some (m.check_status (.raised e)) = m.last_status
  · rw [poll_eq_of_eq m _ h]
    exact Or.inl rfl
  · rw [poll_eq_of_ne m _ h]
    by_cases hcb : m.on_status_change = true
    · rw [if_pos hcb]
      exact Or.inr rfl
    · rw [if_neg hcb]
      exact Or.inl rfl

/-- C7: `start`, `stop` and `restart` each launch exactly one invocation of
the control script with exactly the matching single argument, both output
streams discarded, and return the spawn record at once — the result does not
depend on the child's eventual exit code, which is never inspected. -/
theorem actions_dispatch_once (m : ContainerMonitor) (ec ec' : Int) :
    m.start (.spawned ec) = .ok (m, [],
      { args := [m.mssql_sh_path, "start"], stdout_devnull := true, stderr_devnull := true })
    ∧ m.stop (.spawned ec) = .ok (m, [],
      { args := [m.mssql_sh_path, "stop"], stdout_devnull := true, stderr_devnull := true })
    ∧ m.restart (.spawned ec) = .ok (m, [],
      { args := [m.mssql_sh_path, "restart"], stdout_devnull := true, stderr_devnull := true })
    ∧ m.start (.spawned ec) = m.start (.spawned ec')
    ∧ m.stop (.spawned ec) = m.stop (.spawned ec')
    ∧ m.restart (.spawned ec) = m.restart (.spawned ec') :=
  ⟨rfl, rfl, rfl, rfl, rfl, rfl⟩

/-- C8: the classification of a completed probe depends only on its standard
output, never on its exit code: identical output with different exit codes
classifies identically, and a completed probe — whatever its exit code —
is always `RUNNING` or `STOPPED` by output alone. -/
theorem check_status_ignores_returncode (m : ContainerMonitor) (out : String)
    (rc rc' : Int) :
    m.check_status (.completed out rc) = m.check_status (.completed out rc')
    ∧ (m.check_status (.completed out rc) = .RUNNING
        ∨ m.check_status (.completed out rc) = .STOPPED) := by
  refine ⟨rfl, ?_⟩
  by_cases h : m.container_name ∈ pyNames out
  · exact Or.inl (by simp [ContainerMonitor.check_status, subprocessRun, h])
  · exact Or.inr (by simp [ContainerMonitor.check_status, subprocessRun, h])

/-- C9: a fault at control-script dispatch is neither caught nor reported by
`start`, `stop` or `restart`: the launch fault propagates out of the action
method unhandled. -/
theorem action_launch_fault_unhandled (m : ContainerMonitor) (e : PyError) :
    m.start (.failed e) = .error e
    ∧ m.stop (.failed e) = .error e
    ∧ m.restart (.failed e) = .error e :=
  ⟨rfl, rfl, rfl⟩

/-- C10: the action methods leave the monitor's state — name, script path,
stored status and callback registration — exactly as it was, and invoke no
status-change callback; state changes are observable only through `poll`. -/
theorem actions_preserve_state (m : ContainerMonitor) (ec : Int) :
    (m.start (.spawned ec)).map Prod.fst = .ok m
    ∧ (m.stop (.spawned ec)).map Prod.fst = .ok m
    ∧ (m.restart (.spawned ec)).map Prod.fst = .ok m
    ∧ (m.start (.spawned ec)).map (fun r => r.2.1) = .ok ([] : List ContainerStatus)
    ∧ (m.stop (.spawned ec)).map (fun r => r.2.1) = .ok ([] : List ContainerStatus)
    ∧ (m.restart (.spawned ec)).map (fun r => r.2.1) = .ok ([] : List ContainerStatus) :=
  ⟨rfl, rfl, rfl, rfl, rfl, rfl⟩

end MssqlTray
